import Mathlib

/-!
Verification of the request-authentication/authorization gate
(`src/middlewares/authMiddleware.js`) and of the client-side
persisted-state store that the repository's cart tests exercise.

The middleware functions `requireSignIn` and `isAdmin` are embedded as
pure Lean functions.  Express-style side effects (`res.status(..).send(..)`,
`next()`), the call counter of the external verification primitive and the
`req.user` assignment are made explicit in an effect record, so that the
theorems can speak about exactly which responses are sent and whether the
downstream handler is invoked.  The external collaborators
(`JWT.verify`, `userModel.findById`) are parameters, as in the source,
where they are imported modules.
-/

/-- Decoded claim set of a verified credential (the JWT payload).
The middleware only ever reads the subject id field `_id`. -/
structure Claims where
  _id : String
deriving DecidableEq, Repr

/-- Body of an HTTP response sent by the middleware:
`{ success, message }`, optionally with an `error` field
(the admin middleware embeds the caught error in its failure body). -/
structure ResBody where
  success : Bool
  message : String
  error : Option String
deriving DecidableEq, Repr

/-- A response sent through `res.status(st).send(body)`. -/
structure SentResponse where
  status : Nat
  body : ResBody
deriving DecidableEq, Repr

/-- Observable effects of one invocation of `requireSignIn`:
the responses sent, how often `next()` was called, how often the
verification primitive `JWT.verify` was invoked, and the claim set
attached to `req.user` (if any). -/
structure GateEffects where
  responses : List SentResponse
  nextCalls : Nat
  verifyCalls : Nat
  attachedUser : Option Claims
deriving DecidableEq, Repr

/-- Observable effects of one invocation of `isAdmin`. -/
structure AdminEffects where
  responses : List SentResponse
  nextCalls : Nat
deriving DecidableEq, Repr

/-- JavaScript truthiness test of `req.headers.authorization`:
the header is falsy when it is absent (`undefined`) or the empty string. -/
def jsFalsy : Option String → Bool
  | none => true
  | some s => s == ""

/-- Boolean prefix test on character lists, the semantics of
JavaScript `String.prototype.startsWith`. -/
def listStartsWith : List Char → List Char → Bool
  | _, [] => true
  | [], _ :: _ => false
  | c :: cs, p :: ps => c == p && listStartsWith cs ps

/-- JavaScript `s.startsWith(p)`. -/
def jsStartsWith (s p : String) : Bool :=
  listStartsWith s.data p.data

/-- JavaScript `s.substring(n)` (drop the first `n` code units; all
strings involved here are ASCII, so code units coincide with characters). -/
def jsSubstring (s : String) (n : Nat) : String :=
  ⟨s.data.drop n⟩

/-- Token extraction of `requireSignIn` (lines 13–15 of the source):
strip a leading `Bearer ` if present, otherwise use the raw header. -/
def extractToken (authHeader : String) : String :=
  if jsStartsWith authHeader "Bearer " then
    jsSubstring authHeader "Bearer ".length
  else
    authHeader

/-- The 401 response for a missing authorization header (line 11). -/
def missingTokenResponse : SentResponse :=
  ⟨401, ⟨false, "Unauthorized: Missing token", none⟩⟩

/-- The 401 response for a failed verification (line 21). -/
def invalidTokenResponse : SentResponse :=
  ⟨401, ⟨false, "Unauthorized: Invalid token", none⟩⟩

/-- Embedding of `requireSignIn` (authMiddleware.js lines 5–23).
`verify` is the external primitive `JWT.verify(·, process.env.JWT_SECRET)`;
a throw of the primitive is its `.error` result and lands in the
`catch` branch of the source, which sends the invalid-token response.
The function is total: no exception escapes to the caller. -/
def requireSignIn (verify : String → Except String Claims)
    (authorization : Option String) : GateEffects :=
  if jsFalsy authorization then
    { responses := [missingTokenResponse]
      nextCalls := 0
      verifyCalls := 0
      attachedUser := none }
  else
    let authHeader := authorization.getD ""
    let token := extractToken authHeader
    match verify token with
    | .ok decode =>
        { responses := []
          nextCalls := 1
          verifyCalls := 1
          attachedUser := some decode }
    | .error _ =>
        { responses := [invalidTokenResponse]
          nextCalls := 0
          verifyCalls := 1
          attachedUser := none }

/-- An identity record as read by `isAdmin`: only the numeric role
classifier is consulted (`role !== 1`). -/
structure UserRecord where
  role : Int
deriving DecidableEq, Repr

/-- Result of the external identity store `userModel.findById`:
the promise resolves with a document, resolves with `null`
(no record with that id), or rejects. -/
inductive LookupOutcome where
  | found (u : UserRecord)
  | nullRecord
  | rejected (e : String)

/-- The 401 response for an authenticated non-admin identity (lines 30–33). -/
def unauthorizedAccessResponse : SentResponse :=
  ⟨401, ⟨false, "UnAuthorized Access", none⟩⟩

/-- The 401 response of the `catch` branch of `isAdmin` (lines 39–43):
the body embeds the caught error value. -/
def adminErrorResponse (e : String) : SentResponse :=
  ⟨401, ⟨false, "Error in admin middleware", some e⟩⟩

/-- Embedding of `isAdmin` (authMiddleware.js lines 26–45).
When the lookup resolves with `null`, the source evaluates `user.role`
on `null`, which throws a `TypeError`; the `catch` block turns it into
the generic admin-middleware error response.  When the lookup rejects,
the awaited rejection is likewise caught. -/
def isAdmin (findById : String → LookupOutcome) (reqUser : Claims) :
    AdminEffects :=
  match findById reqUser._id with
  | .found user =>
      if user.role ≠ 1 then
        { responses := [unauthorizedAccessResponse], nextCalls := 0 }
      else
        { responses := [], nextCalls := 1 }
  | .nullRecord =>
      { responses :=
          [adminErrorResponse "TypeError: Cannot read properties of null (reading role)"]
        nextCalls := 0 }
  | .rejected e =>
      { responses := [adminErrorResponse e], nextCalls := 0 }

/-- The admin-gated pipeline: `requireSignIn` runs first; `isAdmin` runs
only when `requireSignIn` called `next()` with claims attached.
Returns the list of responses sent over the whole pipeline. -/
def adminGatePipeline (verify : String → Except String Claims)
    (findById : String → LookupOutcome)
    (authorization : Option String) : List SentResponse :=
  let s := requireSignIn verify authorization
  match s.attachedUser with
  | some c => s.responses ++ (isAdmin findById c).responses
  | none => s.responses

/-!
The cart provider (`context/cart.js`) is exercised by the repository's
integration tests but its source is not part of the material, so the
`PersistedStateStore` component below is modelled from the specification
of the store (initialize / set / observer notification over a key-value
durable storage).
-/

/-- Durable key-value storage (the `localStorage` interface
`get(key) → string|null`, `set(key, string)`, `remove(key)`),
modelled as a partial map from keys to stored strings. -/
def StorageMap : Type := String → Option String

/-- `storage.set(key, value)`. -/
def storagePut (st : StorageMap) (k v : String) : StorageMap :=
  fun q => if q = k then some v else st q

/-- `storage.removeItem(key)`. -/
def storageRemove (st : StorageMap) (k : String) : StorageMap :=
  fun q => if q = k then none else st q

/-- Storage with no keys present. -/
def emptyStorage : StorageMap := fun _ => none

/-- Configuration of one named slot of persisted state:
its key, its empty default value, and its serialization codec. -/
structure StoreCfg (T : Type) where
  name : String
  empty : T
  encode : T → String
  decode : String → Option T

/-- Result of `initialize`: the value produced, the storage as left
behind, the error messages logged, and the keys whose removal was
issued during corruption recovery. -/
structure InitResult (T : Type) where
  value : T
  storage : StorageMap
  errorLog : List String
  removedKeys : List String

/-- Modelled from the spec: `PersistedStateStore.initialize(name)`
(the cart provider's mount-time read of durable storage, absent from
the source material).  Read the raw serialized value for `name`; if
absent, fall back to the empty default with no write-back; if present
and parseable, return the decoded value verbatim; if present but
unparseable, log the error, remove the key and fall back to the empty
default.  The function is total: the corruption path never propagates
an exception. -/
def initializeStore {T : Type} (cfg : StoreCfg T) (st : StorageMap) :
    InitResult T :=
  match st cfg.name with
  | none => ⟨cfg.empty, st, [], []⟩
  | some raw =>
    match cfg.decode raw with
    | some v => ⟨v, st, [], []⟩
    | none =>
        ⟨cfg.empty, storageRemove st cfg.name,
         ["SyntaxError: unexpected token in persisted value"], [cfg.name]⟩

/-- In-memory state of one running store instance: the canonical value,
the current durable storage, and the values delivered to observers
(in commit order). -/
structure StoreState (T : Type) where
  value : T
  storage : StorageMap
  notified : List T

/-- Argument of `set`: a literal replacement value or a pure updater
from the previous value to the next. -/
inductive SetArg (T : Type) where
  | literal (v : T)
  | updater (f : T → T)

/-- Modelled from the spec: `PersistedStateStore.set(nextValueOrUpdater)`
(the cart provider's `setCart`, absent from the source material).
In order: compute the next value (the updater observes the current
in-memory value), commit it in memory, notify observers with the new
value, and write the serialized value to durable storage under the
slot's name. -/
def applySet {T : Type} (cfg : StoreCfg T) (s : StoreState T)
    (arg : SetArg T) : StoreState T :=
  let next :=
    match arg with
    | .literal v => v
    | .updater f => f s.value
  { value := next
    notified := s.notified ++ [next]
    storage := storagePut s.storage cfg.name (cfg.encode next) }

/-!
Concrete fixtures used by the witness theorems below.
-/

/-- A concrete verifier accepting exactly the token `tok1`. -/
def exVerify : String → Except String Claims :=
  fun t => if t = "tok1" then .ok ⟨"u1"⟩ else .error "invalid signature"

/-- A concrete identity store: one privileged record, one ordinary
record, no record for any other id. -/
def exFindById : String → LookupOutcome :=
  fun uid =>
    if uid = "admin1" then .found ⟨1⟩
    else if uid = "user1" then .found ⟨0⟩
    else .nullRecord

/-- A concrete store slot holding a boolean with an exact codec. -/
def boolCfg : StoreCfg Bool :=
  { name := "cart"
    empty := false
    encode := fun b => if b then "1" else "0"
    decode := fun s =>
      if s = "1" then some true else if s = "0" then some false else none }

/-- Storage seeded with an unparseable string under the cart key. -/
def corruptStorage : StorageMap :=
  storagePut emptyStorage "cart" "\x7bnot-json"

/-- A concrete store slot holding a list of item ids. -/
def listCfg : StoreCfg (List String) :=
  { name := "cart"
    empty := []
    encode := fun l => String.intercalate "," l
    decode := fun s => some (s.splitOn ",") }

theorem listStartsWith_self_append (p s : List Char) :
    listStartsWith (p ++ s) p = true := by
  induction p with
  | nil => simp [listStartsWith]
  | cons c cs ih => simp [listStartsWith, ih]

theorem jsStartsWith_bearer_append (tok : String) :
    jsStartsWith ("Bearer " ++ tok) "Bearer " = true := by
  rw [jsStartsWith, String.data_append]
  exact listStartsWith_self_append _ _

theorem extractToken_bearer_append (tok : String) :
    extractToken ("Bearer " ++ tok) = tok := by
  rw [extractToken, if_pos (jsStartsWith_bearer_append tok)]
  apply String.ext
  show (("Bearer " ++ tok).data.drop "Bearer ".length) = tok.data
  rw [String.data_append]
  show ("Bearer ".data ++ tok.data).drop "Bearer ".data.length = tok.data
  exact List.drop_left _ _

theorem jsFalsy_bearer (tok : String) :
    jsFalsy (some ("Bearer " ++ tok)) = false := by
  simp [jsFalsy]
  intro h
  have := congrArg String.data h
  rw [String.data_append] at this
  simp at this

/-- Claim C2: for a request with no authorization header, `requireSignIn`
sends exactly the 401 missing-token response, never calls `next`, and
never invokes the verification primitive. -/
theorem requireSignIn_missing_header_rejects
    (verify : String → Except String Claims) :
    requireSignIn verify none =
      { responses := [missingTokenResponse], nextCalls := 0,
        verifyCalls := 0, attachedUser := none } := rfl

/-- Claim C3: for a request whose credential fails verification,
`requireSignIn` sends exactly the 401 invalid-token response and does not
call `next`; the embedding is a total function, so no exception escapes. -/
theorem requireSignIn_invalid_token_rejects
    (verify : String → Except String Claims) (h e : String)
    (hne : h ≠ "") (hv : verify (extractToken h) = .error e) :
    requireSignIn verify (some h) =
      { responses := [invalidTokenResponse], nextCalls := 0,
        verifyCalls := 1, attachedUser := none } := by
  have hf : jsFalsy (some h) = false := by simp [jsFalsy, hne]
  simp [requireSignIn, hf, hv]

/-- Witness for C3 at a concrete failing verifier and header. -/
theorem requireSignIn_invalid_token_rejects_witness :
    requireSignIn (fun _ => .error "jwt malformed") (some "abc") =
      { responses := [invalidTokenResponse], nextCalls := 0,
        verifyCalls := 1, attachedUser := none } :=
  requireSignIn_invalid_token_rejects (fun _ => .error "jwt malformed")
    "abc" "jwt malformed" (by decide) rfl

/-- Claim C4: for a valid credential, bare or with the `Bearer ` header
form, `requireSignIn` calls `next` once, sends no response, and attaches
exactly the decoded claim set to the request. -/
theorem requireSignIn_valid_token_admits
    (verify : String → Except String Claims) (tok : String) (c : Claims)
    (hv : verify tok = .ok c) :
    (jsStartsWith tok "Bearer " = false → tok ≠ "" →
      requireSignIn verify (some tok) =
        { responses := [], nextCalls := 1, verifyCalls := 1,
          attachedUser := some c }) ∧
    requireSignIn verify (some ("Bearer " ++ tok)) =
      { responses := [], nextCalls := 1, verifyCalls := 1,
        attachedUser := some c } := by
  constructor
  · intro hb hne
    have hf : jsFalsy (some tok) = false := by simp [jsFalsy, hne]
    have he : extractToken tok = tok := by
      rw [extractToken, if_neg]
      simp [hb]
    simp [requireSignIn, hf, he, hv]
  · have hf := jsFalsy_bearer tok
    have he := extractToken_bearer_append tok
    simp [requireSignIn, hf, he, hv]


/-- Witness for C4 at the concrete verifier, with and without the
`Bearer ` form of the header. -/
theorem requireSignIn_valid_token_admits_witness :
    requireSignIn exVerify (some "tok1") =
      { responses := [], nextCalls := 1, verifyCalls := 1,
        attachedUser := some ⟨"u1"⟩ } ∧
    requireSignIn exVerify (some ("Bearer " ++ "tok1")) =
      { responses := [], nextCalls := 1, verifyCalls := 1,
        attachedUser := some ⟨"u1"⟩ } :=
  ⟨(requireSignIn_valid_token_admits exVerify "tok1" ⟨"u1"⟩ rfl).1
      (by decide) (by decide),
   (requireSignIn_valid_token_admits exVerify "tok1" ⟨"u1"⟩ rfl).2⟩

/-- Claim C10: on every input, one invocation of `requireSignIn` either
sends exactly one response and never calls `next`, or sends no response
and calls `next` exactly once. -/
theorem requireSignIn_single_outcome
    (verify : String → Except String Claims) (authorization : Option String) :
    ((requireSignIn verify authorization).responses.length = 1 ∧
      (requireSignIn verify authorization).nextCalls = 0) ∨
    ((requireSignIn verify authorization).responses.length = 0 ∧
      (requireSignIn verify authorization).nextCalls = 1) := by
  by_cases hf : jsFalsy authorization = true
  · left
    simp [requireSignIn, hf]
  · have hf' : jsFalsy authorization = false := by simpa using hf
    cases hv : verify (extractToken (authorization.getD "")) with
    | ok c =>
      right
      simp [requireSignIn, hf', hv]
    | error e =>
      left
      simp [requireSignIn, hf', hv]

/-- Claim C1 counterexample: when the identity lookup yields no record,
`isAdmin` responds with the admin-middleware error body, not with the
`UnAuthorized Access` body the claim requires. -/
theorem isAdmin_nullRecord_not_forbidden_message :
    ((isAdmin (fun _ => .nullRecord) ⟨"u1"⟩).responses.map
        (fun r => r.body.message) = ["Error in admin middleware"]) ∧
    ¬ ((isAdmin (fun _ => .nullRecord) ⟨"u1"⟩).responses.map
        (fun r => r.body.message) = ["UnAuthorized Access"]) := by
  decide

/-- Claim C1 (amended): when the lookup yields a record, `isAdmin`
rejects 401 `UnAuthorized Access` for a non-privileged role and admits
(calls `next`) for the privileged role; when the lookup yields no
record, the null-record field access faults inside the middleware and
it rejects 401 `Error in admin middleware` instead. -/
theorem isAdmin_role_gate
    (findById : String → LookupOutcome) (c : Claims) :
    (∀ u, findById c._id = .found u →
      (u.role ≠ 1 →
        isAdmin findById c =
          { responses := [unauthorizedAccessResponse], nextCalls := 0 }) ∧
      (u.role = 1 →
        isAdmin findById c = { responses := [], nextCalls := 1 })) ∧
    (findById c._id = .nullRecord →
      isAdmin findById c =
        { responses :=
            [adminErrorResponse
              "TypeError: Cannot read properties of null (reading role)"],
          nextCalls := 0 }) := by
  constructor
  · intro u hu
    constructor
    · intro hr
      simp [isAdmin, hu, hr]
    · intro hr
      simp [isAdmin, hu, hr]
  · intro hn
    simp [isAdmin, hn]


/-- Witness for the amended C1 at the concrete identity store. -/
theorem isAdmin_role_gate_witness :
    isAdmin exFindById ⟨"user1"⟩ =
      { responses := [unauthorizedAccessResponse], nextCalls := 0 } ∧
    isAdmin exFindById ⟨"admin1"⟩ = { responses := [], nextCalls := 1 } ∧
    isAdmin exFindById ⟨"nobody"⟩ =
      { responses :=
          [adminErrorResponse
            "TypeError: Cannot read properties of null (reading role)"],
        nextCalls := 0 } :=
  ⟨((isAdmin_role_gate exFindById ⟨"user1"⟩).1 ⟨0⟩ rfl).1 (by decide),
   ((isAdmin_role_gate exFindById ⟨"admin1"⟩).1 ⟨1⟩ rfl).2 rfl,
   (isAdmin_role_gate exFindById ⟨"nobody"⟩).2 rfl⟩

/-- Claim C5: when the identity lookup rejects, `isAdmin` responds 401
with the admin-middleware error body embedding the underlying error,
and never calls `next` (fail-closed). -/
theorem isAdmin_lookup_failure_fail_closed
    (findById : String → LookupOutcome) (c : Claims) (e : String)
    (hrej : findById c._id = .rejected e) :
    isAdmin findById c =
      { responses := [adminErrorResponse e], nextCalls := 0 } := by
  simp [isAdmin, hrej]

/-- Witness for C5 at a concrete failing store. -/
theorem isAdmin_lookup_failure_fail_closed_witness :
    isAdmin (fun _ => .rejected "store unavailable") ⟨"u1"⟩ =
      { responses := [adminErrorResponse "store unavailable"],
        nextCalls := 0 } :=
  isAdmin_lookup_failure_fail_closed (fun _ => .rejected "store unavailable")
    ⟨"u1"⟩ "store unavailable" rfl

/-- Claim C6: when `requireSignIn` rejects (the request is
unauthenticated), the admin-gated pipeline never answers with the
`UnAuthorized Access` body; its one response is the missing-token or the
invalid-token message. -/
theorem adminPipeline_unauthenticated_messages
    (verify : String → Except String Claims)
    (findById : String → LookupOutcome) (authorization : Option String)
    (hrej : (requireSignIn verify authorization).nextCalls = 0) :
    ("UnAuthorized Access" ∉
      (adminGatePipeline verify findById authorization).map
        (fun r => r.body.message)) ∧
    ((adminGatePipeline verify findById authorization).map
        (fun r => r.body.message) = ["Unauthorized: Missing token"] ∨
      (adminGatePipeline verify findById authorization).map
        (fun r => r.body.message) = ["Unauthorized: Invalid token"]) := by
  by_cases hf : jsFalsy authorization = true
  · constructor
    · simp [adminGatePipeline, requireSignIn, hf, missingTokenResponse]
    · left
      simp [adminGatePipeline, requireSignIn, hf, missingTokenResponse]
  · have hf' : jsFalsy authorization = false := by simpa using hf
    cases hv : verify (extractToken (authorization.getD "")) with
    | ok c =>
      exfalso
      rw [requireSignIn] at hrej
      simp [hf', hv] at hrej
    | error e =>
      constructor
      · simp [adminGatePipeline, requireSignIn, hf', hv, invalidTokenResponse]
      · right
        simp [adminGatePipeline, requireSignIn, hf', hv, invalidTokenResponse]

/-- Witness for C6: a headerless request through the full pipeline. -/
theorem adminPipeline_unauthenticated_messages_witness :
    ("UnAuthorized Access" ∉
      (adminGatePipeline exVerify (fun _ => .nullRecord) none).map
        (fun r => r.body.message)) ∧
    ((adminGatePipeline exVerify (fun _ => .nullRecord) none).map
        (fun r => r.body.message) = ["Unauthorized: Missing token"] ∨
      (adminGatePipeline exVerify (fun _ => .nullRecord) none).map
        (fun r => r.body.message) = ["Unauthorized: Invalid token"]) :=
  adminPipeline_unauthenticated_messages exVerify (fun _ => .nullRecord)
    none rfl

/-- Claim C7: round-trip persistence — after `set(v)`, initializing a
fresh store instance from the same durable storage (a process restart)
returns exactly `v`, for every value the slot's codec round-trips. -/
theorem store_set_initialize_roundTrip {T : Type} (cfg : StoreCfg T)
    (s : StoreState T) (v : T)
    (hcodec : cfg.decode (cfg.encode v) = some v) :
    (initializeStore cfg ((applySet cfg s (.literal v)).storage)).value
      = v := by
  simp [applySet, initializeStore, storagePut, hcodec]


/-- Witness for C7 at the concrete slot and the value `true`. -/
theorem store_set_initialize_roundTrip_witness :
    (initializeStore boolCfg
      ((applySet boolCfg ⟨false, emptyStorage, []⟩
        (.literal true)).storage)).value = true :=
  store_set_initialize_roundTrip boolCfg ⟨false, emptyStorage, []⟩ true
    (by decide)

/-- Claim C8: corruption recovery — when storage holds an unparseable
string under the slot's key, `initialize` returns the empty default,
logs an error, issues a removal of the key, and (being a total
function) throws nothing. -/
theorem store_initialize_corruption_recovery {T : Type} (cfg : StoreCfg T)
    (st : StorageMap) (raw : String)
    (hraw : st cfg.name = some raw) (hbad : cfg.decode raw = none) :
    (initializeStore cfg st).value = cfg.empty ∧
    (initializeStore cfg st).errorLog ≠ [] ∧
    (initializeStore cfg st).removedKeys = [cfg.name] ∧
    (initializeStore cfg st).storage cfg.name = none := by
  simp [initializeStore, hraw, hbad, storageRemove]


/-- Witness for C8 at the concrete corrupted storage. -/
theorem store_initialize_corruption_recovery_witness :
    (initializeStore boolCfg corruptStorage).value = false ∧
    (initializeStore boolCfg corruptStorage).errorLog ≠ [] ∧
    (initializeStore boolCfg corruptStorage).removedKeys = ["cart"] ∧
    (initializeStore boolCfg corruptStorage).storage "cart" = none :=
  store_initialize_corruption_recovery boolCfg corruptStorage
    "\x7bnot-json" rfl rfl

/-- Claim C9: functional-update correctness — from prior in-memory value
`[a]`, `set(prev => [...prev, b])` leaves both the in-memory value and
the stored serialized value equal to `[a, b]`. -/
theorem store_functional_update_append {α : Type} (cfg : StoreCfg (List α))
    (s : StoreState (List α)) (a b : α) (hprev : s.value = [a]) :
    (applySet cfg s (.updater (fun prev => prev ++ [b]))).value
        = [a, b] ∧
    (applySet cfg s (.updater (fun prev => prev ++ [b]))).storage cfg.name
        = some (cfg.encode [a, b]) := by
  simp [applySet, hprev, storagePut]


/-- Witness for C9 at the concrete list slot with prior value `[a]`. -/
theorem store_functional_update_append_witness :
    (applySet listCfg ⟨["a"], emptyStorage, []⟩
        (.updater (fun prev => prev ++ ["b"]))).value = ["a", "b"] ∧
    (applySet listCfg ⟨["a"], emptyStorage, []⟩
        (.updater (fun prev => prev ++ ["b"]))).storage "cart"
      = some (listCfg.encode ["a", "b"]) :=
  store_functional_update_append listCfg ⟨["a"], emptyStorage, []⟩
    "a" "b" rfl

/-- Witness for C2: a headerless request at a concrete verifier. -/
theorem requireSignIn_missing_header_rejects_witness :
    requireSignIn exVerify none =
      { responses := [missingTokenResponse], nextCalls := 0,
        verifyCalls := 0, attachedUser := none } :=
  requireSignIn_missing_header_rejects exVerify

/-- Witness for C10 at a concrete verifier and header. -/
theorem requireSignIn_single_outcome_witness :
    ((requireSignIn exVerify (some "abc")).responses.length = 1 ∧
      (requireSignIn exVerify (some "abc")).nextCalls = 0) ∨
    ((requireSignIn exVerify (some "abc")).responses.length = 0 ∧
      (requireSignIn exVerify (some "abc")).nextCalls = 1) :=
  requireSignIn_single_outcome exVerify (some "abc")
